import Mathlib

set_option maxRecDepth 20000

/-!
Verification development for the SQL-Data-Warehouse-Project Airflow DAG
(`dags/postgres_dwh_pipeline.py`).

The DAG orchestrates a Medallion ETL (Bronze → Silver → Gold) with enforced
data-quality assertions.  The Python code is shallowly embedded here:

* database scalars are rationals (`Rat`): the queries return integer counts
  and one `ROUND(..., 2)` percentage, all exact decimals;
* a row returned by `get_first` is `Option Rat` (`none` = SQL NULL), and the
  whole result is `Option (Option Rat)` (`none` = no row, matching Python's
  `None` return from `get_first`);
* each `raise` site of the Python file becomes one constructor of
  `CheckError`, and Python's exception propagation becomes the `Except`
  monad's error propagation;
* the `PostgresHook` plus the container file system become the `Exec`
  record of functions, so a run is a pure function of the backend's
  responses.
-/

namespace DWH

/-- One database scalar inside a returned row: `none` models SQL NULL,
`some q` a numeric value. -/
abbrev Scalar := Option Rat

/-- Every way a task of the DAG can terminate abnormally: one constructor
per `raise` site of `dags/postgres_dwh_pipeline.py`, plus the Python
`TypeError` that the untyped comparison `completeness < 95.0` raises when
`completeness` is `None`, and a database-level error surfaced by the hook. -/
inductive CheckError where
  | nullResult (test_name : String)
  | mismatch (test_name : String) (expected actual : Rat)
  | completenessBelow (completeness : Rat)
  | fileNotFound (file_path : String)
  | typeError
  | dbError (msg : String)
deriving DecidableEq

/-- The message attached to each raised exception, reproducing the format
strings of the source (`❌ {test_name}: Query returned NULL`,
`❌ {test_name} FAILED: Expected {expected_value}, got {actual_value}`,
`❌ Data completeness FAILED: {completeness}% (expected >= 95%)`,
`✗ CRITICAL: SQL file not found at {file_path}`). -/
def CheckError.message : CheckError → String
  | .nullResult test_name => "❌ " ++ test_name ++ ": Query returned NULL"
  | .mismatch test_name expected actual =>
      "❌ " ++ test_name ++ " FAILED: Expected " ++ toString expected
        ++ ", got " ++ toString actual
  | .completenessBelow completeness =>
      "❌ Data completeness FAILED: " ++ toString completeness
        ++ "% (expected >= 95%)"
  | .fileNotFound file_path => "✗ CRITICAL: SQL file not found at " ++ file_path
  | .typeError => "TypeError: unsupported comparison between NoneType and float"
  | .dbError msg => msg

/-- The warehouse connection (`PostgresHook`) together with the container
file system read by `read_sql_file`:
`run` executes a SQL command (`pg_hook.run`), `get_first` returns the first
row of a query (`pg_hook.get_first`; `none` = no row), and `fs` maps a path
to the file's content when the file exists. -/
structure Exec where
  run : String → Except CheckError Unit
  get_first : String → Except CheckError (Option Scalar)
  fs : String → Option String

/-- Embedding of `run_quality_assertion(pg_hook, test_name, query,
expected_value=0)`: fetch the first row, take
`actual_value = result[0] if result else None`, raise
`Query returned NULL` when the value is absent, raise the mismatch
exception when `actual_value != expected_value`, succeed otherwise. -/
def run_quality_assertion (pg_hook : Exec) (test_name : String) (query : String)
    (expected_value : Rat := 0) : Except CheckError Unit :=
  match pg_hook.get_first query with
  | .error e => .error e
  | .ok result =>
    let actual_value : Scalar :=
      match result with
      | Option.none => Option.none
      | some row => row
    match actual_value with
    | Option.none => .error (.nullResult test_name)
    | some a =>
      if a ≠ expected_value then
        .error (.mismatch test_name expected_value a)
      else
        .ok ()

/-! SQL text of the DAG's commands and queries (whitespace normalised to a
single line; token content as in the source). -/

def bronze_sql_command : String :=
  "CALL bronze.load_bronze(\x27C:/Users/vlado/Desktop/SQL-project-last/SQL-Data-Warehouse-Project/data_sets/source_crm/\x27, \x27C:/Users/vlado/Desktop/SQL-project-last/SQL-Data-Warehouse-Project/data_sets/source_erp/\x27);"

def silver_sql_command : String := "CALL silver.load_silver();"

def gold_file_path : String := "/opt/airflow/project_root/scripts/gold/ddl_gold.sql"

def dup_customers_query : String :=
  "SELECT COUNT(*) FROM ( SELECT cst_id, COUNT(*) FROM silver.crm_cust_info GROUP BY cst_id HAVING COUNT(*) > 1 ) duplicates;"

def null_customers_query : String :=
  "SELECT COUNT(*) FROM silver.crm_cust_info WHERE cst_id IS NULL;"

def dup_products_query : String :=
  "SELECT COUNT(*) FROM ( SELECT prd_id, COUNT(*) FROM silver.crm_prd_info GROUP BY prd_id HAVING COUNT(*) > 1 ) duplicates;"

def null_customer_keys_query : String :=
  "SELECT COUNT(*) FROM gold.dim_customers WHERE customer_key IS NULL;"

def dup_dim_customers_query : String :=
  "SELECT COUNT(*) FROM ( SELECT customer_id, COUNT(*) FROM gold.dim_customers GROUP BY customer_id HAVING COUNT(*) > 1 ) duplicates;"

def null_product_keys_query : String :=
  "SELECT COUNT(*) FROM gold.dim_products WHERE product_key IS NULL;"

def orphan_products_query : String :=
  "SELECT COUNT(*) FROM gold.fact_sales f WHERE f.product_key NOT IN ( SELECT product_key FROM gold.dim_products WHERE product_key IS NOT NULL );"

def orphan_customers_query : String :=
  "SELECT COUNT(*) FROM gold.fact_sales f WHERE f.customer_key NOT IN ( SELECT customer_key FROM gold.dim_customers WHERE customer_key IS NOT NULL );"

def gold_completeness_query : String :=
  "SELECT ROUND( 100.0 * SUM(CASE WHEN product_key IS NOT NULL AND customer_key IS NOT NULL THEN 1 ELSE 0 END) / NULLIF(COUNT(*), 0), 2 ) AS completeness_percentage FROM gold.fact_sales;"

/-- One declarative quality assertion: the three arguments each
`run_quality_assertion` call receives in the source. -/
structure Assertion where
  name : String
  query : String
  expected : Rat
deriving DecidableEq

/-- Evaluating one assertion is exactly a `run_quality_assertion` call. -/
def Assertion.eval (pg_hook : Exec) (a : Assertion) : Except CheckError Unit :=
  run_quality_assertion pg_hook a.name a.query a.expected

/-- The three assertions of `check_silver_quality_task`, in the order of the
source's calls. -/
def silver_assertions : List Assertion :=
  [⟨"No duplicate customers in silver.crm_cust_info", dup_customers_query, 0⟩,
   ⟨"No NULL customer IDs in silver.crm_cust_info", null_customers_query, 0⟩,
   ⟨"No duplicate products in silver.crm_prd_info", dup_products_query, 0⟩]

/-- The five `run_quality_assertion` assertions of `check_gold_quality_task`,
in the order of the source's calls (the inline completeness check follows
them, see `check_gold_completeness`). -/
def gold_assertions : List Assertion :=
  [⟨"No NULL customer keys in dim_customers", null_customer_keys_query, 0⟩,
   ⟨"No duplicate customers in dim_customers", dup_dim_customers_query, 0⟩,
   ⟨"No NULL product keys in dim_products", null_product_keys_query, 0⟩,
   ⟨"No orphaned products in fact_sales", orphan_products_query, 0⟩,
   ⟨"No orphaned customers in fact_sales", orphan_customers_query, 0⟩]

/-- A sequence of `run_quality_assertion` calls written one after the other
in a task body: the first raised exception aborts the remaining calls
(Python exception propagation as `Except` error propagation). -/
def runAssertionSeq (pg_hook : Exec) : List Assertion → Except CheckError Unit
  | [] => .ok ()
  | a :: rest =>
    match a.eval pg_hook with
    | .error e => .error e
    | .ok _ => runAssertionSeq pg_hook rest

/-- Per-assertion outcome vocabulary used by the run report: an assertion
that was reached either passed or failed with a reason; an assertion behind
an earlier failure is never executed and stays `NotRun`. -/
inductive Outcome where
  | NotRun
  | Passed
  | Failed (reason : CheckError)
deriving DecidableEq

/-- Instrumented view of `runAssertionSeq`: the same left-to-right
evaluation, additionally recording each assertion's outcome and the gate's
failure cause.  After the first failing assertion the remaining assertions
are not evaluated (their `eval` is never applied) and are reported
`NotRun`. -/
def evalGate (pg_hook : Exec) : List Assertion → List Outcome × Option CheckError
  | [] => ([], Option.none)
  | a :: rest =>
    match a.eval pg_hook with
    | .error e => (Outcome.Failed e :: rest.map (fun _ => Outcome.NotRun), some e)
    | .ok _ =>
      let r := evalGate pg_hook rest
      (Outcome.Passed :: r.1, r.2)

/-- Embedding of `read_sql_file`: return the file content, or raise
`FileNotFoundError` with the `✗ CRITICAL` message when the file is
absent. -/
def read_sql_file (fs : String → Option String) (file_path : String) :
    Except CheckError String :=
  match fs file_path with
  | some sql_content => .ok sql_content
  | Option.none => .error (.fileNotFound file_path)

/-- Embedding of `load_bronze_task`: run the `CALL bronze.load_bronze(...)`
command built from the converted Windows paths. -/
def load_bronze_task (pg_hook : Exec) : Except CheckError Unit :=
  pg_hook.run bronze_sql_command

/-- Embedding of `load_silver_task`: run `CALL silver.load_silver();`. -/
def load_silver_task (pg_hook : Exec) : Except CheckError Unit :=
  pg_hook.run silver_sql_command

/-- Embedding of `check_silver_quality_task`: the source writes three
sequential `run_quality_assertion` calls; sequential raising calls are
exactly `runAssertionSeq` over the declared list. -/
def check_silver_quality_task (pg_hook : Exec) : Except CheckError Unit :=
  runAssertionSeq pg_hook silver_assertions

/-- Embedding of `create_gold_views_task`: read `ddl_gold.sql` and run its
content. -/
def create_gold_views_task (pg_hook : Exec) : Except CheckError Unit :=
  match read_sql_file pg_hook.fs gold_file_path with
  | .error e => .error e
  | .ok sql_script => pg_hook.run sql_script

/-- Embedding of the inline completeness check at the end of
`check_gold_quality_task`:
`completeness = result[0] if result else 0` (a missing row is coalesced to
the number 0, while a row holding SQL NULL leaves `completeness = None`),
then `if completeness < 95.0: raise ...`.  Comparing `None` with the float
literal raises `TypeError` in Python, embedded as the `typeError` error. -/
def check_gold_completeness (pg_hook : Exec) : Except CheckError Unit :=
  match pg_hook.get_first gold_completeness_query with
  | .error e => .error e
  | .ok result =>
    let completeness : Scalar :=
      match result with
      | Option.none => some 0
      | some row => row
    match completeness with
    | Option.none => .error .typeError
    | some c =>
      if c < 95 then .error (.completenessBelow c) else .ok ()

/-- Embedding of `check_gold_quality_task`: the five `run_quality_assertion`
calls in declared order, then the inline completeness check. -/
def check_gold_quality_task (pg_hook : Exec) : Except CheckError Unit :=
  match runAssertionSeq pg_hook gold_assertions with
  | .error e => .error e
  | .ok _ => check_gold_completeness pg_hook

/-- One pipeline stage: its task id and its task body. -/
structure Stage where
  id : String
  body : Exec → Except CheckError Unit

/-- Final status of one stage in the run report. -/
inductive StageStatus where
  | Succeeded
  | Failed (cause : CheckError)
  | Skipped
deriving DecidableEq

/-- Terminal state of a run: every stage succeeded, or the run aborted at a
stage index with that stage's cause. -/
inductive RunResult where
  | Completed
  | Aborted (idx : Nat) (cause : CheckError)
deriving DecidableEq

/-- Shift an abort index by one (the head stage of a list precedes the
recursively computed result of its tail). -/
def RunResult.shift : RunResult → RunResult
  | .Completed => .Completed
  | .Aborted i c => .Aborted (i + 1) c

/-- Modelled from the spec: the Pipeline Executor state machine of §4.3.
The source file declares the linear order
`bronze >> silver >> silver_qc >> gold >> gold_qc` and delegates the
sequencing itself (run in order, skip every downstream task once one
fails) to the Airflow runtime, which is not part of this repository.
`runStages` runs the stages in list order; on the first failure the
remaining stages' bodies are never applied, they are reported `Skipped`,
and the run is `Aborted` at the failing index with its cause. -/
def runStages (pg_hook : Exec) : List Stage → List StageStatus × RunResult
  | [] => ([], .Completed)
  | s :: rest =>
    match s.body pg_hook with
    | .error c => (StageStatus.Failed c :: rest.map (fun _ => StageStatus.Skipped),
                   .Aborted 0 c)
    | .ok _ =>
      let r := runStages pg_hook rest
      (StageStatus.Succeeded :: r.1, r.2.shift)

def bronze_stage : Stage := ⟨"load_bronze", load_bronze_task⟩

def silver_stage : Stage := ⟨"load_silver", load_silver_task⟩

def silver_qc_stage : Stage := ⟨"check_silver_quality", check_silver_quality_task⟩

def gold_stage : Stage := ⟨"create_gold_views", create_gold_views_task⟩

def gold_qc_stage : Stage := ⟨"check_gold_quality", check_gold_quality_task⟩

/-- The declared stage order of the DAG:
`bronze >> silver >> silver_qc >> gold >> gold_qc`. -/
def pipeline_stages : List Stage :=
  [bronze_stage, silver_stage, silver_qc_stage, gold_stage, gold_qc_stage]

/-- The whole pipeline: run the five declared stages in order. -/
def sql_data_warehouse_pipeline_with_assertions (pg_hook : Exec) :
    List StageStatus × RunResult :=
  runStages pg_hook pipeline_stages

/-- The spec's comparator vocabulary for the Assertion Engine. -/
inductive Comparator where
  | Equals
  | GreaterOrEqual
  | LessOrEqual
deriving DecidableEq

/-- Modelled from the spec: §4.1's comparator semantics, `Equals` passes iff
`actual == expected`, `GreaterOrEqual` iff `actual >= expected`,
`LessOrEqual` iff `actual <= expected`. -/
def specEvaluate : Comparator → Rat → Rat → Bool
  | .Equals, a, e => a == e
  | .GreaterOrEqual, a, e => e ≤ a
  | .LessOrEqual, a, e => a ≤ e

/-- The comparison shapes actually present in the DAG:
`run_quality_assertion` compares with `!=` (the `Equals` comparator) and
the inline gold completeness check compares with `< 95.0` (the
`GreaterOrEqual` comparator against the fixed threshold).  No `<=`
comparison occurs anywhere in the file. -/
def implementedComparators : List Comparator :=
  [Comparator.Equals, Comparator.GreaterOrEqual]

/-- Substring containment on strings, used to state what a failure message
reports. -/
def strContains (s sub : String) : Bool := decide (sub.data <:+: s.data)

/-! Concrete query executors used to exercise the definitions. -/

/-- A backend on which every command succeeds and every scalar query returns
the single value 0 in one row. -/
def execAllZero : Exec where
  run := fun _ => .ok ()
  get_first := fun _ => .ok (some (some 0))
  fs := fun _ => some "CREATE VIEW gold.dim_customers AS SELECT 1;"

/-- A backend identical to `execAllZero` except that the duplicate-customer
count of the Silver gate's first assertion is 2. -/
def execDup : Exec where
  run := fun _ => .ok ()
  get_first := fun q =>
    if q = dup_customers_query then .ok (some (some 2)) else .ok (some (some 0))
  fs := fun _ => some "CREATE VIEW gold.dim_customers AS SELECT 1;"

/-- A backend whose scalar queries return no row at all. -/
def execNoRow : Exec where
  run := fun _ => .ok ()
  get_first := fun _ => .ok Option.none
  fs := fun _ => some ""

/-- A backend whose scalar queries return one row holding SQL NULL. -/
def execNullRow : Exec where
  run := fun _ => .ok ()
  get_first := fun _ => .ok (some Option.none)
  fs := fun _ => some ""

/-- A backend whose scalar queries return the single value 1. -/
def execOne : Exec where
  run := fun _ => .ok ()
  get_first := fun _ => .ok (some (some 1))
  fs := fun _ => some ""

/-- A backend whose scalar queries return the single value 3. -/
def execThree : Exec where
  run := fun _ => .ok ()
  get_first := fun _ => .ok (some (some 3))
  fs := fun _ => some ""

/-- The exact rational 94.99, built without normalisation. -/
def rat9499 : Rat := ⟨9499, 100, by decide, by decide⟩

/-- A backend whose completeness query reports exactly 95%. -/
def execCompleteness95 : Exec where
  run := fun _ => .ok ()
  get_first := fun q =>
    if q = gold_completeness_query then .ok (some (some 95)) else .ok (some (some 0))
  fs := fun _ => some ""

/-- A backend whose completeness query reports 94.99%. -/
def execCompleteness9499 : Exec where
  run := fun _ => .ok ()
  get_first := fun q =>
    if q = gold_completeness_query then .ok (some (some rat9499))
    else .ok (some (some 0))
  fs := fun _ => some ""

/-- A backend modelling an empty `gold.fact_sales`: the aggregate
completeness query returns one row whose value is SQL NULL (`SUM` over zero
rows is NULL and `NULLIF(COUNT(*), 0)` is NULL), every other scalar query
returns 0 and every command succeeds. -/
def execEmptyFact : Exec where
  run := fun _ => .ok ()
  get_first := fun q =>
    if q = gold_completeness_query then .ok (some Option.none)
    else .ok (some (some 0))
  fs := fun _ => some "CREATE VIEW gold.dim_customers AS SELECT 1;"

/-! Helper lemmas. -/

/-- A string contains any middle factor of an append decomposition. -/
theorem strContains_of_eq (s p sub q : String) (h : s = p ++ sub ++ q) :
    strContains s sub = true := by
  subst h
  simp only [strContains, decide_eq_true_eq, String.data_append]
  exact List.infix_append p.data sub.data q.data

/-- A string contains its final factor. -/
theorem strContains_final (p sub : String) : strContains (p ++ sub) sub = true := by
  simp only [strContains, decide_eq_true_eq, String.data_append]
  have h := List.infix_append p.data sub.data []
  simpa using h

/-! Theorems for the claims. -/

/-- C1: for every stage sequence run by the pipeline executor, if the stage
at index `i` fails while all earlier stages succeed, the stages before `i`
end `Succeeded`, stage `i` ends `Failed` with its cause, every later stage
is never executed and ends `Skipped` (the result does not depend on the
later stages' bodies), and the run is `Aborted` at index `i` with that
cause; moreover the declared stage order is Bronze load, Silver load,
Silver quality gate, Gold view creation, Gold quality gate. -/
theorem pipeline_abort_invariant (pg : Exec) (pre : List Stage) (s : Stage)
    (post : List Stage) (c : CheckError)
    (hpre : ∀ t ∈ pre, t.body pg = .ok ())
    (hs : s.body pg = .error c) :
    runStages pg (pre ++ s :: post) =
      (pre.map (fun _ => StageStatus.Succeeded)
         ++ StageStatus.Failed c :: post.map (fun _ => StageStatus.Skipped),
       RunResult.Aborted pre.length c)
    ∧ pipeline_stages.map Stage.id =
      ["load_bronze", "load_silver", "check_silver_quality",
       "create_gold_views", "check_gold_quality"] := by
  refine ⟨?_, rfl⟩
  induction pre with
  | nil => simp [runStages, hs]
  | cons t ts ih =>
    have ht : t.body pg = .ok () := hpre t (List.mem_cons_self t ts)
    have ih2 := ih (fun u hu => hpre u (List.mem_cons_of_mem t hu))
    simp [runStages, ht, ih2, RunResult.shift]

/-- C1 witness: on the backend with two duplicate customers the first two
stages succeed, the Silver quality gate fails, the Gold stages are skipped
and the run aborts at index 2. -/
theorem pipeline_abort_invariant_witness :
    runStages execDup pipeline_stages =
      ([StageStatus.Succeeded, StageStatus.Succeeded,
        StageStatus.Failed
          (CheckError.mismatch "No duplicate customers in silver.crm_cust_info" 0 2),
        StageStatus.Skipped, StageStatus.Skipped],
       RunResult.Aborted 2
         (CheckError.mismatch "No duplicate customers in silver.crm_cust_info" 0 2)) := by
  have h := pipeline_abort_invariant execDup [bronze_stage, silver_stage]
    silver_qc_stage [gold_stage, gold_qc_stage]
    (CheckError.mismatch "No duplicate customers in silver.crm_cust_info" 0 2)
    (by intro t ht; simp only [List.mem_cons, List.mem_singleton] at ht
        rcases ht with h1 | h1 | h1 <;> first | (subst h1; rfl) | cases h1)
    (by rfl)
  exact h.1

/-- C2: assertions of a quality gate run in declared order and evaluation is
fail-fast: when every assertion before `a` passes and `a` fails with cause
`c`, the earlier assertions are `Passed`, `a` is `Failed c`, every later
assertion is never evaluated and reported `NotRun` (the result does not
depend on the later assertions), the gate's failure cause is `c`, the raw
task-body evaluation also stops with `c`; the Silver quality task is this
evaluation over its declared list, and for the Gold quality task a failure
of its assertion sequence is the task's failure (the inline completeness
check never runs after it). -/
theorem gate_fail_fast (pg : Exec) (pre : List Assertion) (a : Assertion)
    (post : List Assertion) (c : CheckError)
    (hpre : ∀ b ∈ pre, b.eval pg = .ok ())
    (ha : a.eval pg = .error c) :
    evalGate pg (pre ++ a :: post) =
      (pre.map (fun _ => Outcome.Passed)
         ++ Outcome.Failed c :: post.map (fun _ => Outcome.NotRun), some c)
    ∧ runAssertionSeq pg (pre ++ a :: post) = .error c
    ∧ check_silver_quality_task pg = runAssertionSeq pg silver_assertions
    ∧ (∀ c2, runAssertionSeq pg gold_assertions = .error c2 →
        check_gold_quality_task pg = .error c2) := by
  refine ⟨?_, ?_, rfl, ?_⟩
  · induction pre with
    | nil => simp [evalGate, ha]
    | cons b bs ih =>
      have hb : b.eval pg = .ok () := hpre b (List.mem_cons_self b bs)
      have ih2 := ih (fun u hu => hpre u (List.mem_cons_of_mem b hu))
      simp [evalGate, hb, ih2]
  · induction pre with
    | nil => simp [runAssertionSeq, ha]
    | cons b bs ih =>
      have hb : b.eval pg = .ok () := hpre b (List.mem_cons_self b bs)
      have ih2 := ih (fun u hu => hpre u (List.mem_cons_of_mem b hu))
      simp [runAssertionSeq, hb, ih2]
  · intro c2 h2
    simp [check_gold_quality_task, h2]

/-- C2 witness: on the duplicate-customer backend the Silver gate's first
assertion fails, the other two are `NotRun`, and the gate's cause is the
first assertion's mismatch. -/
theorem gate_fail_fast_witness :
    evalGate execDup silver_assertions =
      ([Outcome.Failed
          (CheckError.mismatch "No duplicate customers in silver.crm_cust_info" 0 2),
        Outcome.NotRun, Outcome.NotRun],
       some (CheckError.mismatch "No duplicate customers in silver.crm_cust_info" 0 2))
    ∧ runAssertionSeq execDup silver_assertions =
      .error (CheckError.mismatch "No duplicate customers in silver.crm_cust_info" 0 2) := by
  have h := gate_fail_fast execDup []
    ⟨"No duplicate customers in silver.crm_cust_info", dup_customers_query, 0⟩
    [⟨"No NULL customer IDs in silver.crm_cust_info", null_customers_query, 0⟩,
     ⟨"No duplicate products in silver.crm_prd_info", dup_products_query, 0⟩]
    (CheckError.mismatch "No duplicate customers in silver.crm_cust_info" 0 2)
    (by intro b hb; cases hb)
    (by rfl)
  exact ⟨h.1, h.2.1⟩

/-- C3 counterexample: when the completeness query returns no row, the Gold
completeness check does not produce the missing-result outcome: the absent
value is coalesced to the number 0 and the check fails as an ordinary
threshold failure whose message reports 0%. -/
theorem gold_completeness_treats_missing_row_as_zero :
    check_gold_completeness execNoRow = .error (CheckError.completenessBelow 0)
    ∧ CheckError.message (CheckError.completenessBelow 0) =
      "❌ Data completeness FAILED: 0% (expected >= 95%)" := by
  exact ⟨rfl, rfl⟩

/-- C3 amended: every `run_quality_assertion`-based check maps both a
missing row and a row holding SQL NULL to the `Query returned NULL` failure
(never treated as 0, never passed); the inline Gold completeness check
instead coalesces a missing row to the number 0 and fails the 95% threshold
(still never passed), and maps a row holding SQL NULL to a type error. -/
theorem missing_result_amended :
    (∀ pg n q e, Exec.get_first pg q = .ok Option.none →
      run_quality_assertion pg n q e = .error (CheckError.nullResult n))
    ∧ (∀ pg n q e, Exec.get_first pg q = .ok (some Option.none) →
      run_quality_assertion pg n q e = .error (CheckError.nullResult n))
    ∧ (∀ pg, Exec.get_first pg gold_completeness_query = .ok Option.none →
      check_gold_completeness pg = .error (CheckError.completenessBelow 0))
    ∧ (∀ pg, Exec.get_first pg gold_completeness_query = .ok (some Option.none) →
      check_gold_completeness pg = .error CheckError.typeError) := by
  refine ⟨?_, ?_, ?_, ?_⟩ <;> intros <;>
    simp_all [run_quality_assertion, check_gold_completeness]

/-- C3 amended witness: concrete no-row and NULL-row backends. -/
theorem missing_result_amended_witness :
    run_quality_assertion execNoRow "t" "q" 0 = .error (CheckError.nullResult "t")
    ∧ run_quality_assertion execNullRow "t" "q" 0 = .error (CheckError.nullResult "t")
    ∧ check_gold_completeness execNullRow = .error CheckError.typeError :=
  ⟨missing_result_amended.1 execNoRow "t" "q" 0 rfl,
   missing_result_amended.2.1 execNullRow "t" "q" 0 rfl,
   missing_result_amended.2.2.2 execNullRow rfl⟩

/-- C4: with the Equals comparison of `run_quality_assertion`, a present
scalar passes iff it equals the expected value; a mismatch fails with the
mismatch cause, and for expected 0 and actual 3 the reason message reports
expected 0 and actual 3. -/
theorem equals_comparator (pg : Exec) (n q : String) (e a : Rat)
    (h : Exec.get_first pg q = .ok (some (some a))) :
    (run_quality_assertion pg n q e = .ok () ↔ a = e)
    ∧ (a ≠ e → run_quality_assertion pg n q e = .error (CheckError.mismatch n e a))
    ∧ CheckError.message (CheckError.mismatch n 0 3) =
      "❌ " ++ n ++ " FAILED: Expected 0, got 3" := by
  refine ⟨?_, ?_, ?_⟩
  · by_cases hae : a = e <;> simp [run_quality_assertion, h, hae]
  · intro hne; simp [run_quality_assertion, h, hne]
  · have hlit : " FAILED: Expected " ++ (toString (0 : Rat) ++ (", got " ++ toString (3 : Rat)))
        = " FAILED: Expected 0, got 3" := by decide
    simp only [CheckError.message, String.append_assoc, hlit]

/-- C4 witness: actual 0 vs expected 0 passes; actual 3 vs expected 0 fails
with the mismatch reporting expected 0, got 3. -/
theorem equals_comparator_witness :
    run_quality_assertion execAllZero "t" "q" 0 = .ok ()
    ∧ run_quality_assertion execThree "t" "q" 0 =
      .error (CheckError.mismatch "t" 0 3) := by
  constructor
  · exact (equals_comparator execAllZero "t" "q" 0 0 rfl).1.mpr rfl
  · exact (equals_comparator execThree "t" "q" 0 3 rfl).2.1 (by decide)

/-- C5: the Gold completeness threshold check (the pipeline's
GreaterOrEqual comparison, expected 95.0) passes iff the reported
completeness is at least 95, and below 95 it fails with the completeness
cause. -/
theorem greater_or_equal_threshold (pg : Exec) (v : Rat)
    (h : Exec.get_first pg gold_completeness_query = .ok (some (some v))) :
    (check_gold_completeness pg = .ok () ↔ 95 ≤ v)
    ∧ (v < 95 → check_gold_completeness pg =
      .error (CheckError.completenessBelow v)) := by
  constructor
  · constructor
    · intro hok
      by_contra hle
      have hv : v < 95 := not_le.mp hle
      simp [check_gold_completeness, h, hv] at hok
    · intro hge
      have hv : ¬ v < 95 := not_lt.mpr hge
      simp [check_gold_completeness, h, hv]
  · intro hv
    simp [check_gold_completeness, h, hv]

/-- C5 witness: completeness exactly 95 passes; completeness 94.99 fails. -/
theorem greater_or_equal_threshold_witness :
    check_gold_completeness execCompleteness95 = .ok ()
    ∧ check_gold_completeness execCompleteness9499 =
      .error (CheckError.completenessBelow rat9499) := by
  constructor
  · exact (greater_or_equal_threshold execCompleteness95 95 rfl).1.mpr (by decide)
  · exact (greater_or_equal_threshold execCompleteness9499 rat9499 rfl).2 (by decide)

/-- C6 counterexample: the LessOrEqual comparator is not implemented by the
code.  The spec-side LessOrEqual semantics passes actual 1 against expected
2, but the code's only assertion engine rejects it with an equality
mismatch, and LessOrEqual is not among the comparison shapes present in the
code. -/
theorem less_or_equal_not_implemented :
    specEvaluate Comparator.LessOrEqual 1 2 = true
    ∧ run_quality_assertion execOne "LE check" "q" 2 =
      .error (CheckError.mismatch "LE check" 2 1)
    ∧ decide (Comparator.LessOrEqual ∈ implementedComparators) = false := by
  refine ⟨by decide, rfl, by decide⟩

/-- C6 amended: the code implements exactly the Equals comparison (in
`run_quality_assertion`, passing iff actual equals expected) and the
GreaterOrEqual comparison (only as the inline Gold completeness threshold
against 95); LessOrEqual does not occur. -/
theorem implemented_comparators_amended :
    implementedComparators = [Comparator.Equals, Comparator.GreaterOrEqual]
    ∧ (∀ pg n q e a, Exec.get_first pg q = .ok (some (some a)) →
      (run_quality_assertion pg n q e = .ok () ↔
        specEvaluate Comparator.Equals a e = true))
    ∧ (∀ pg v, Exec.get_first pg gold_completeness_query = .ok (some (some v)) →
      (check_gold_completeness pg = .ok () ↔
        specEvaluate Comparator.GreaterOrEqual v 95 = true)) := by
  refine ⟨rfl, ?_, ?_⟩
  · intro pg n q e a h
    by_cases hae : a = e <;> simp [run_quality_assertion, specEvaluate, h, hae]
  · intro pg v h
    constructor
    · intro hok
      by_contra hle
      have hv : v < 95 := not_le.mp (by simpa [specEvaluate] using hle)
      simp [check_gold_completeness, h, hv] at hok
    · intro hge
      have hv : ¬ v < 95 := not_lt.mpr (by simpa [specEvaluate] using hge)
      simp [check_gold_completeness, h, hv]

/-- C6 amended witness: the Equals engine passes 0 against 0 and the
completeness threshold passes at 95. -/
theorem implemented_comparators_amended_witness :
    run_quality_assertion execAllZero "t2" "q2" 0 = .ok ()
    ∧ check_gold_completeness execCompleteness95 = .ok () := by
  constructor
  · exact (implemented_comparators_amended.2.1 execAllZero "t2" "q2" 0 0 rfl).mpr
      (by decide)
  · exact (implemented_comparators_amended.2.2 execCompleteness95 95 rfl).mpr
      (by decide)

/-- C7 counterexample: the mismatch failure message contains the assertion
name, the expected value and the actual value, but no rendering of the
comparator: neither the word Equals (in either case) nor an equality
symbol appears in it. -/
theorem mismatch_reason_omits_comparator :
    CheckError.message
      (CheckError.mismatch "No duplicate customers in silver.crm_cust_info" 0 3) =
      "❌ No duplicate customers in silver.crm_cust_info FAILED: Expected 0, got 3"
    ∧ strContains
      "❌ No duplicate customers in silver.crm_cust_info FAILED: Expected 0, got 3"
      "Equals" = false
    ∧ strContains
      "❌ No duplicate customers in silver.crm_cust_info FAILED: Expected 0, got 3"
      "equals" = false
    ∧ strContains
      "❌ No duplicate customers in silver.crm_cust_info FAILED: Expected 0, got 3"
      "==" = false := by
  refine ⟨by decide, by decide, by decide, by decide⟩

/-- C7 amended: every mismatch failure reason includes the assertion's
name, the expected value and the actual value (the comparator is conveyed
only by the fixed wording, not included as such). -/
theorem failure_reason_contents (n : String) (e a : Rat) :
    strContains (CheckError.message (CheckError.mismatch n e a)) n = true
    ∧ strContains (CheckError.message (CheckError.mismatch n e a)) (toString e) = true
    ∧ strContains (CheckError.message (CheckError.mismatch n e a)) (toString a) = true := by
  refine ⟨?_, ?_, ?_⟩
  · exact strContains_of_eq _ "❌ " n
      (" FAILED: Expected " ++ (toString e ++ (", got " ++ toString a)))
      (by simp [CheckError.message, String.append_assoc])
  · exact strContains_of_eq _ ("❌ " ++ (n ++ " FAILED: Expected ")) (toString e)
      (", got " ++ toString a)
      (by simp [CheckError.message, String.append_assoc])
  · have h : CheckError.message (CheckError.mismatch n e a) =
        ("❌ " ++ (n ++ (" FAILED: Expected " ++ (toString e ++ ", got "))))
          ++ toString a := by
      simp [CheckError.message, String.append_assoc]
    rw [h]
    exact strContains_final _ _

/-- C8: two executions of the pipeline against backends that answer every
command, scalar query and file read identically produce the same per-stage
statuses and terminal outcome, and the same assertion outcomes in the same
order for both quality gates. -/
theorem run_deterministic (e1 e2 : Exec)
    (hr : ∀ c, Exec.run e1 c = Exec.run e2 c)
    (hg : ∀ q, Exec.get_first e1 q = Exec.get_first e2 q)
    (hf : ∀ p, Exec.fs e1 p = Exec.fs e2 p) :
    sql_data_warehouse_pipeline_with_assertions e1 =
      sql_data_warehouse_pipeline_with_assertions e2
    ∧ evalGate e1 silver_assertions = evalGate e2 silver_assertions
    ∧ evalGate e1 gold_assertions = evalGate e2 gold_assertions := by
  have he : e1 = e2 := by
    cases e1
    cases e2
    have h1 := funext hr
    have h2 := funext hg
    have h3 := funext hf
    simp only at h1 h2 h3
    simp [h1, h2, h3]
  subst he
  exact ⟨rfl, rfl, rfl⟩

/-- C8 witness: re-running against the same backend reproduces the report. -/
theorem run_deterministic_witness :
    sql_data_warehouse_pipeline_with_assertions execDup =
      sql_data_warehouse_pipeline_with_assertions execDup
    ∧ evalGate execDup silver_assertions = evalGate execDup silver_assertions
    ∧ evalGate execDup gold_assertions = evalGate execDup gold_assertions :=
  run_deterministic execDup execDup (fun _ => rfl) (fun _ => rfl) (fun _ => rfl)

/-- C9: calling `run_quality_assertion` without the `expected_value`
argument compares against the default 0: a present scalar passes iff it is
0, and the call is the same as passing 0 explicitly. -/
theorem default_expected_zero (pg : Exec) (n q : String) (a : Rat)
    (h : Exec.get_first pg q = .ok (some (some a))) :
    (run_quality_assertion pg n q = .ok () ↔ a = 0)
    ∧ run_quality_assertion pg n q = run_quality_assertion pg n q 0 := by
  constructor
  · by_cases h0 : a = 0 <;> simp [run_quality_assertion, h, h0]
  · rfl

/-- C9 witness: a 0 scalar passes a call that omits the expected value. -/
theorem default_expected_zero_witness :
    run_quality_assertion execAllZero "t3" "q3" = .ok () :=
  (default_expected_zero execAllZero "t3" "q3" 0 rfl).1.mpr rfl

/-- C10: on a backend modelling an empty `gold.fact_sales` (the
completeness query returns one row holding SQL NULL, all other checks
clean), the Gold quality task fails with the Python type error raised by
comparing `None` against `95.0`, not with a clean assertion failure: the
untyped comparison is not total over the possible query results. -/
theorem gold_null_completeness_type_error :
    check_gold_quality_task execEmptyFact = .error CheckError.typeError
    ∧ check_gold_completeness execEmptyFact = .error CheckError.typeError := by
  exact ⟨rfl, rfl⟩

end DWH
